import Mathlib

/-!
Shallow embedding of the `tmus` terminal music player (`src/tmus/app.py`):
the search filter `search_library` and the interactive session loop of
`main_ui` (navigation cursors, search mode, volume, seeks, resize handling).

Strings are embedded as `List Char`; Python integers as `Int`.  The track
index (a Python `dict` from artist name to album structure, insertion
ordered) is embedded as an association list preserving order.
-/

namespace Tmus

/-- An artist or path name: a Python string as a list of characters. -/
abbrev Name := List Char

/-- An album: its name together with its ordered track paths. -/
abbrev Album := Name × List Name

/-- The track index: artist name to album sequence, in discovery order. -/
abbrev Library := List (Name × List Album)

/-- Modelled from the spec: `flatten_album` is imported from
`tmus.music_scanner`, whose source is not in the repository snapshot.
Per spec section 4.1, flattening is the deterministic concatenation of an
artist's albums' tracks, preserving album order then intra-album order. -/
def flatten_album (albums : List Album) : List Name :=
  (albums.map Prod.snd).flatten

/-- Python `str.lower`, restricted to the ASCII characters the UI feeds it. -/
def strLower (s : Name) : Name := s.map Char.toLower

/-- Python `os.path.basename`: the part of a path after the last slash. -/
def basename (p : Name) : Name :=
  p.foldl (fun acc c => if c = '/' then [] else acc ++ [c]) []

/-- Python `needle in hay` on strings: contiguous substring test. -/
def substr (needle hay : Name) : Bool := decide (needle <:+: hay)

/-- `query_lower in artist.lower()` (app.py line 59). -/
def artistMatches (ql artist : Name) : Bool := substr ql (strLower artist)

/-- `any(query_lower in os.path.basename(song).lower() for song in all_songs)`
(app.py lines 62-63). -/
def songMatches (ql : Name) (albums : List Album) : Bool :=
  (flatten_album albums).any fun song => substr ql (strLower (basename song))

/-- The `for artist, albums in library.items()` loop of `search_library`
(app.py lines 57-68): builds the filtered dict and the filtered artist
list in iteration order. -/
def searchGo (ql : Name) : Library → Library × List Name
  | [] => ([], [])
  | (artist, albums) :: rest =>
    let r := searchGo ql rest
    if artistMatches ql artist || songMatches ql albums then
      ((artist, albums) :: r.1, artist :: r.2)
    else r

/-- `search_library(library, query)` (app.py lines 48-70). -/
def search_library (library : Library) (query : Name) : Library × List Name :=
  if query = [] then (library, library.map Prod.fst)
  else searchGo (strLower query) library

/-- The spec's inclusion condition, stated in the spec's own words: the
query is a case-insensitive substring of the artist's name, or of the
basename of at least one of the artist's flattened tracks. -/
def specIncluded (query artist : Name) (albums : List Album) : Prop :=
  strLower query <:+: strLower artist ∨
    ∃ song ∈ flatten_album albums, strLower query <:+: strLower (basename song)

/-- The match predicate of the loop body, as one Boolean. -/
def matchPred (ql : Name) (e : Name × List Album) : Bool :=
  artistMatches ql e.1 || songMatches ql e.2

lemma searchGo_eq_filter (ql : Name) (lib : Library) :
    searchGo ql lib = (lib.filter (matchPred ql), (lib.filter (matchPred ql)).map Prod.fst) := by
  induction lib with
  | nil => rfl
  | cons e rest ih =>
    obtain ⟨a, al⟩ := e
    cases hm : matchPred ql (a, al) with
    | false =>
      simp only [searchGo, List.filter_cons, hm, ih]
      simp [matchPred] at hm
      simp [hm.1, hm.2]
    | true =>
      simp only [searchGo, List.filter_cons, hm, ih]
      simp only [matchPred] at hm
      simp [hm]

lemma matchPred_iff_specIncluded (q : Name) (e : Name × List Album) :
    matchPred (strLower q) e = true ↔ specIncluded q e.1 e.2 := by
  simp only [matchPred, artistMatches, songMatches, substr, specIncluded,
    Bool.or_eq_true, List.any_eq_true, decide_eq_true_eq]

/-- C1: for a non-empty query, the filtered index is exactly the original
index restricted to matching artists: an artist entry is in the result iff
it is an entry of the original index and the query case-insensitively
matches the artist name or the basename of one of its tracks; every kept
entry carries its complete, unmodified album/track structure, and
non-matching artists appear nowhere in the result. -/
theorem search_filter_nonempty_characterization (lib : Library) (q : Name) (hq : q ≠ []) :
    (search_library lib q).1 = lib.filter (matchPred (strLower q)) ∧
      ∀ a al, ((a, al) ∈ (search_library lib q).1 ↔ ((a, al) ∈ lib ∧ specIncluded q a al)) := by
  have hbase : search_library lib q = searchGo (strLower q) lib := by
    simp [search_library, hq]
  rw [hbase, searchGo_eq_filter]
  refine ⟨rfl, fun a al => ?_⟩
  rw [List.mem_filter, matchPred_iff_specIncluded]

/-- Witness for C1 on the spec's own scenario: artists Abba and Bjork,
query "a.mp3" keeps Abba with both of its tracks and drops Bjork. -/
theorem search_filter_nonempty_characterization_witness :
    (String.toList "a.mp3" ≠ [] ∧
      (search_library
          [(String.toList "Abba",
             [(String.toList "A1", [String.toList "/m/Abba/a.mp3", String.toList "/m/Abba/b.mp3"])]),
           (String.toList "Bjork", [(String.toList "B1", [String.toList "/m/Bjork/c.mp3"])])]
          (String.toList "a.mp3")).1 =
        [(String.toList "Abba",
           [(String.toList "A1", [String.toList "/m/Abba/a.mp3", String.toList "/m/Abba/b.mp3"])])]) ∧
      ((String.toList "Abba",
          [(String.toList "A1", [String.toList "/m/Abba/a.mp3", String.toList "/m/Abba/b.mp3"])]) ∈
        (search_library
          [(String.toList "Abba",
             [(String.toList "A1", [String.toList "/m/Abba/a.mp3", String.toList "/m/Abba/b.mp3"])]),
           (String.toList "Bjork", [(String.toList "B1", [String.toList "/m/Bjork/c.mp3"])])]
          (String.toList "a.mp3")).1) := by
  refine ⟨⟨by decide, by decide⟩, ?_⟩
  have h := search_filter_nonempty_characterization
    [(String.toList "Abba",
       [(String.toList "A1", [String.toList "/m/Abba/a.mp3", String.toList "/m/Abba/b.mp3"])]),
     (String.toList "Bjork", [(String.toList "B1", [String.toList "/m/Bjork/c.mp3"])])]
    (String.toList "a.mp3") (by decide)
  refine (h.2 _ _).mpr ⟨by decide, ?_⟩
  right
  exact ⟨String.toList "/m/Abba/a.mp3", by decide, by decide⟩

/-- C3: the empty query returns the original index itself together with
the artist names in their original discovery order. -/
theorem search_empty_query_identity (lib : Library) :
    search_library lib [] = (lib, lib.map Prod.fst) := by
  simp [search_library]

/-- C10: for any query, the returned artist list is a duplicate-free
subsequence of the index's artist names in original order, and the keys
of the returned filtered index are exactly that list. -/
theorem search_artists_sublist_nodup (lib : Library) (q : Name)
    (hnd : (lib.map Prod.fst).Nodup) :
    (search_library lib q).2.Sublist (lib.map Prod.fst) ∧
      (search_library lib q).2.Nodup ∧
      (search_library lib q).1.map Prod.fst = (search_library lib q).2 := by
  by_cases hq : q = []
  · subst hq
    simp only [search_library, if_pos rfl]
    exact ⟨List.Sublist.refl _, hnd, rfl⟩
  · have hbase : search_library lib q = searchGo (strLower q) lib := by
      simp [search_library, hq]
    rw [hbase, searchGo_eq_filter]
    have hsub : ((lib.filter (matchPred (strLower q))).map Prod.fst).Sublist (lib.map Prod.fst) :=
      (List.filter_sublist lib).map Prod.fst
    exact ⟨hsub, hnd.sublist hsub, rfl⟩

/-- Witness for C10 at a concrete two-artist index and query. -/
theorem search_artists_sublist_nodup_witness :
    (([(String.toList "Abba", ([] : List Album)), (String.toList "Bjork", [])].map Prod.fst).Nodup) ∧
      (search_library [(String.toList "Abba", []), (String.toList "Bjork", [])]
          (String.toList "bjork")).2.Sublist
        ([(String.toList "Abba", ([] : List Album)), (String.toList "Bjork", [])].map Prod.fst) := by
  have hnd : (([(String.toList "Abba", ([] : List Album)), (String.toList "Bjork", [])]).map Prod.fst).Nodup := by
    decide
  exact ⟨hnd,
    (search_artists_sublist_nodup [(String.toList "Abba", []), (String.toList "Bjork", [])]
      (String.toList "bjork") hnd).1⟩

/-! ## Session state machine (`main_ui`, app.py lines 87-426) -/

/-- curses key codes used by the loop. -/
def KEY_DOWN : Int := 258
def KEY_UP : Int := 259
def KEY_LEFT : Int := 260
def KEY_RIGHT : Int := 261
def KEY_BACKSPACE : Int := 263
def KEY_ENTER : Int := 343

/-- Commands sent to the external playback engine. -/
inductive Cmd where
  | play (path : Name)
  | pause
  | setVolume (v : Int)
  | setTime (t : Int)
deriving DecidableEq, Repr

/-- The mutable loop state of `main_ui` (app.py lines 121-158):
cursors, search mode, playback flags, volume, terminal layout. -/
structure State where
  selected_artist : Int
  artist_offset : Int
  selected_song : Int
  song_offset : Int
  curr_song : Option Name
  curr_artist : Option Name
  playing : Bool
  repeat_flag : Bool
  search_active : Bool
  search_query : Name
  filtered_library : Library
  filtered_artists : List Name
  volume : Int
  height : Int
  width : Int
  max_rows : Int
deriving Repr

/-- Normalize a Python slice bound: negative indices count from the end,
then the bound is clamped into `[0, length]`. -/
def pyBound (n : Nat) (i : Int) : Nat :=
  (max 0 (if i < 0 then i + n else min i n)).toNat

/-- Python list slicing `l[a:b]`. -/
def pySlice (l : List α) (a b : Int) : List α :=
  (l.take (pyBound l.length b)).drop (pyBound l.length a)

/-- Python list indexing `l[i]` on a name list, with negative indices
counting from the end (out-of-range access is unreachable under the
guards the code performs before indexing). -/
def pyGet (l : List Name) (i : Int) : Name :=
  (if 0 ≤ i then l[i.toNat]? else l[(i + l.length).toNat]?).getD []

/-- Python `dict[key]` on the ordered artist map (unique keys;
a missing key is unreachable under the loop's guards). -/
def dictGet (lib : Library) (k : Name) : List Album :=
  match lib with
  | [] => []
  | (a, al) :: rest => if k = a then al else dictGet rest k

/-- Characters stripped by Python `str.strip()`. -/
def isPySpace (c : Char) : Bool :=
  c = ' ' || c = '\t' || c = '\n' || c = '\r' || c = Char.ofNat 11 || c = Char.ofNat 12

/-- Python `str.strip()`: drop whitespace from both ends. -/
def pyStrip (s : Name) : Name :=
  ((s.dropWhile isPySpace).reverse.dropWhile isPySpace).reverse

/-- Python truthiness of the optional current-song string. -/
def currSongTruthy (s : State) : Bool :=
  match s.curr_song with
  | none => false
  | some p => !p.isEmpty

/-- `current_artists = filtered_artists if search_query else artists`
(app.py lines 216, 356, 364). -/
def currentArtists (library : Library) (s : State) : List Name :=
  if s.search_query ≠ [] then s.filtered_artists else library.map Prod.fst

/-- `current_library = filtered_library if search_query else library`
(app.py line 229). -/
def currentLibrary (library : Library) (s : State) : Library :=
  if s.search_query ≠ [] then s.filtered_library else library

/-- `visible_artists = current_artists[artist_offset:artist_offset + max_rows]`
(app.py line 217). -/
def visibleArtists (library : Library) (s : State) : List Name :=
  pySlice (currentArtists library s) s.artist_offset (s.artist_offset + s.max_rows)

/-- `all_songs_by_artist` as computed per tick (app.py lines 228-241):
the flattened songs of the selected visible artist, or `[]` when no
artist is under the cursor. -/
def allSongsByArtist (library : Library) (s : State) : List Name :=
  if visibleArtists library s ≠ [] ∧
      s.selected_artist < ((visibleArtists library s).length : Int) then
    flatten_album
      (dictGet (currentLibrary library s) (pyGet (visibleArtists library s) s.selected_artist))
  else []

/-- `visible_songs = all_songs_by_artist[song_offset : song_offset + max_rows]`
(app.py line 233). -/
def visibleSongs (library : Library) (s : State) : List Name :=
  pySlice (allSongsByArtist library s) s.song_offset (s.song_offset + s.max_rows)

/-- Artist-cursor movement of the KEY_UP branch (app.py lines 356-360). -/
def artistUpMove (s : State) : State :=
  if s.selected_artist > 0 then { s with selected_artist := s.selected_artist - 1 }
  else if s.selected_artist + s.artist_offset > 0 then { s with artist_offset := s.artist_offset - 1 }
  else s

/-- KEY_UP branch (app.py lines 353-360): the song cursor is reset first
(lines 354-355), then the artist cursor moves. -/
def artistUp (s : State) : State :=
  artistUpMove { s with song_offset := 0, selected_song := 0 }

/-- Artist-cursor movement of the KEY_DOWN branch (app.py lines 364-368);
`nA` is `len(current_artists)`. -/
def artistDownMove (nA : Int) (s : State) : State :=
  if s.selected_artist < min (s.max_rows - 1) (nA - 1) then
    { s with selected_artist := s.selected_artist + 1 }
  else if s.selected_artist + s.artist_offset < nA - 1 then
    { s with artist_offset := s.artist_offset + 1 }
  else s

/-- KEY_DOWN branch (app.py lines 361-368): song cursor reset, then move. -/
def artistDown (nA : Int) (s : State) : State :=
  artistDownMove nA { s with song_offset := 0, selected_song := 0 }

/-- KEY_LEFT branch (app.py lines 369-373). -/
def songLeft (s : State) : State :=
  if s.selected_song > 0 then { s with selected_song := s.selected_song - 1 }
  else if s.selected_song + s.song_offset > 0 then { s with song_offset := s.song_offset - 1 }
  else s

/-- KEY_RIGHT branch (app.py lines 374-378); `nS` is `len(all_songs_by_artist)`. -/
def songRight (nS : Int) (s : State) : State :=
  if s.selected_song < min (s.max_rows - 1) (nS - 1) then
    { s with selected_song := s.selected_song + 1 }
  else if s.selected_song + s.song_offset < nS - 1 then
    { s with song_offset := s.song_offset + 1 }
  else s

/-- ENTER branch while browsing (app.py lines 379-386). -/
def playSelected (library : Library) (s : State) : State × Bool × List Cmd :=
  let visible_songs := visibleSongs library s
  let visible_artists := visibleArtists library s
  if visible_songs ≠ [] ∧ s.selected_song < (visible_songs.length : Int) then
    let song := pyGet visible_songs s.selected_song
    let artist :=
      if visible_artists ≠ [] ∧ s.selected_artist < (visible_artists.length : Int) then
        pyGet visible_artists s.selected_artist
      else String.toList "Unknown Artist"
    ({ s with curr_song := some song, curr_artist := some artist, playing := true },
      false, [Cmd.play song])
  else (s, false, [])

/-- Clearing the filter with `c` (app.py lines 343-350). -/
def clearFilter (library : Library) (s : State) : State :=
  { s with
    search_query := [], filtered_library := library,
    filtered_artists := library.map Prod.fst,
    selected_artist := 0, artist_offset := 0, selected_song := 0, song_offset := 0 }

/-- Key handling while `search_active` (app.py lines 310-335). -/
def searchStep (library : Library) (key : Int) (s : State) : State × Bool × List Cmd :=
  if key = 27 then
    ({ s with
        search_active := false, search_query := [],
        filtered_library := library, filtered_artists := library.map Prod.fst,
        selected_artist := 0, artist_offset := 0, selected_song := 0, song_offset := 0 },
      false, [])
  else if key = KEY_ENTER ∨ key = 10 ∨ key = 13 then
    if pyStrip s.search_query ≠ [] then
      let r := search_library library (pyStrip s.search_query)
      ({ s with
          search_active := false, filtered_library := r.1, filtered_artists := r.2,
          selected_artist := 0, artist_offset := 0, selected_song := 0, song_offset := 0 },
        false, [])
    else ({ s with search_active := false }, false, [])
  else if key = KEY_BACKSPACE ∨ key = 8 ∨ key = 127 then
    if s.search_query ≠ [] then ({ s with search_query := s.search_query.dropLast }, false, [])
    else (s, false, [])
  else if 32 ≤ key ∧ key ≤ 126 then
    ({ s with search_query := s.search_query ++ [Char.ofNat key.toNat] }, false, [])
  else (s, false, [])

/-- One key dispatch of the loop body (app.py lines 310-426), given the
engine readings `t = player.get_time()` and `d = player.get_length()`.
Returns the new state, the quit flag, and the engine commands issued. -/
def handleKey (library : Library) (t d key : Int) (s : State) : State × Bool × List Cmd :=
  if s.search_active then searchStep library key s
  else if key = 47 then ({ s with search_active := true }, false, [])
  else
    let s1 := if key = 99 ∧ s.search_query ≠ [] then clearFilter library s else s
    if key = KEY_UP then (artistUp s1, false, [])
    else if key = KEY_DOWN then (artistDown ((currentArtists library s).length : Int) s1, false, [])
    else if key = KEY_LEFT then (songLeft s1, false, [])
    else if key = KEY_RIGHT then (songRight ((allSongsByArtist library s).length : Int) s1, false, [])
    else if key = KEY_ENTER ∨ key = 10 ∨ key = 13 then playSelected library s1
    else if key = 61 then
      let v := min 100 (s1.volume + 5)
      ({ s1 with volume := v }, false, [Cmd.setVolume v])
    else if key = 45 then
      let v := max 0 (s1.volume - 5)
      ({ s1 with volume := v }, false, [Cmd.setVolume v])
    else if key = 44 then
      if currSongTruthy s1 then (s1, false, [Cmd.setTime (max 0 (t - 5000))]) else (s1, false, [])
    else if key = 46 then
      if currSongTruthy s1 then (s1, false, [Cmd.setTime (min d (t + 5000))]) else (s1, false, [])
    else if key = 60 then
      if currSongTruthy s1 then (s1, false, [Cmd.setTime (max 0 (t - 10000))]) else (s1, false, [])
    else if key = 62 then
      if currSongTruthy s1 then (s1, false, [Cmd.setTime (min d (t + 10000))]) else (s1, false, [])
    else if key = 112 then (s1, false, [Cmd.pause])
    else if key = 114 then ({ s1 with repeat_flag := !s1.repeat_flag }, false, [])
    else if key = 113 then (s1, true, [])
    else (s1, false, [])

/-- The resize check at the top of each loop tick (app.py lines 164-178):
on a dimension change, all four cursors reset and the layout
(`max_rows = height - 12`) is recomputed. It does not consult the mode. -/
def resizeCheck (nh nw : Int) (s : State) : State :=
  if (nh, nw) ≠ (s.height, s.width) then
    { s with
        selected_artist := 0, artist_offset := 0, selected_song := 0, song_offset := 0,
        height := nh, width := nw, max_rows := nh - 12 }
  else s

/-- One full loop tick: resize check, then key dispatch. -/
def tick (library : Library) (nh nw t d key : Int) (s : State) : State × Bool × List Cmd :=
  handleKey library t d key (resizeCheck nh nw s)

/-- Initial session state (app.py lines 121-158): cursors at the top,
browsing mode, volume 50, `max_rows = height - 12`. -/
def initState (library : Library) (h w : Int) : State :=
  { selected_artist := 0, artist_offset := 0, selected_song := 0, song_offset := 0,
    curr_song := none, curr_artist := none, playing := false, repeat_flag := false,
    search_active := false, search_query := [],
    filtered_library := library, filtered_artists := library.map Prod.fst,
    volume := 50, height := h, width := w, max_rows := h - 12 }

/-- Run a sequence of key presses with unchanged terminal dimensions. -/
def runKeys (library : Library) (keys : List Int) (s : State) : State :=
  match keys with
  | [] => s
  | k :: ks => runKeys library ks (tick library s.height s.width 0 0 k s).1

/-- Run a key sequence, also collecting every engine command issued. -/
def runKeysTrace (library : Library) (keys : List Int) (s : State) : State × List Cmd :=
  match keys with
  | [] => (s, [])
  | k :: ks =>
    let r := tick library s.height s.width 0 0 k s
    let rest := runKeysTrace library ks r.1
    (rest.1, r.2.2 ++ rest.2)

/-- The flattened song list of the artist at (absolute) position `i`. -/
def songsAt (lib : Library) (i : Int) : List Name :=
  flatten_album ((lib[i.toNat]?.map Prod.snd).getD [])

/-! ## Mode, search-confirm, resize, and seek claims -/

lemma handleKey_searching (library : Library) (t d key : Int) (s : State)
    (hmode : s.search_active = true) :
    handleKey library t d key s = searchStep library key s := by
  unfold handleKey
  rw [hmode]
  simp

lemma handleKey_up (library : Library) (t d : Int) (s : State)
    (hmode : s.search_active = false) :
    handleKey library t d KEY_UP s = (artistUp s, false, []) := by
  unfold handleKey
  rw [hmode]
  norm_num [KEY_UP]

lemma handleKey_down (library : Library) (t d : Int) (s : State)
    (hmode : s.search_active = false) :
    handleKey library t d KEY_DOWN s =
      (artistDown ((currentArtists library s).length : Int) s, false, []) := by
  unfold handleKey
  rw [hmode]
  norm_num [KEY_UP, KEY_DOWN]

lemma handleKey_left (library : Library) (t d : Int) (s : State)
    (hmode : s.search_active = false) :
    handleKey library t d KEY_LEFT s = (songLeft s, false, []) := by
  unfold handleKey
  rw [hmode]
  norm_num [KEY_UP, KEY_DOWN, KEY_LEFT]

lemma handleKey_right (library : Library) (t d : Int) (s : State)
    (hmode : s.search_active = false) :
    handleKey library t d KEY_RIGHT s =
      (songRight ((allSongsByArtist library s).length : Int) s, false, []) := by
  unfold handleKey
  rw [hmode]
  norm_num [KEY_UP, KEY_DOWN, KEY_LEFT, KEY_RIGHT]

/-- C5: on any tick whose current terminal dimensions differ from the last
known ones, the resize handling resets both cursors and both offsets to
zero and recomputes the layout from the new dimensions; it does not
consult the mode or the query. -/
theorem resize_resets_cursors (nh nw : Int) (s : State)
    (h : (nh, nw) ≠ (s.height, s.width)) :
    (resizeCheck nh nw s).selected_artist = 0 ∧ (resizeCheck nh nw s).artist_offset = 0 ∧
      (resizeCheck nh nw s).selected_song = 0 ∧ (resizeCheck nh nw s).song_offset = 0 ∧
      (resizeCheck nh nw s).height = nh ∧ (resizeCheck nh nw s).width = nw ∧
      (resizeCheck nh nw s).max_rows = nh - 12 ∧
      (resizeCheck nh nw s).search_active = s.search_active ∧
      (resizeCheck nh nw s).search_query = s.search_query := by
  unfold resizeCheck
  rw [if_pos h]
  exact ⟨rfl, rfl, rfl, rfl, rfl, rfl, rfl, rfl, rfl⟩

/-- Witness for C5: shrinking the terminal from 30 to 24 rows resets the
cursors and recomputes `max_rows`. -/
theorem resize_resets_cursors_witness :
    ((24, 80) ≠ (((initState [] 30 80).height), ((initState [] 30 80).width))) ∧
      (resizeCheck 24 80 (initState [] 30 80)).max_rows = 24 - 12 := by
  refine ⟨by decide, ?_⟩
  exact (resize_resets_cursors 24 80 (initState [] 30 80) (by decide)).2.2.2.2.2.2.1

/-- C4: in the Searching state, Confirm (Enter) always returns to
Browsing; a query non-empty after stripping applies the search filter to
the stripped query and resets both cursors and both offsets to zero,
while an empty or whitespace-only query leaves the active view (filtered
index and artist list) exactly as it was. -/
theorem search_confirm_applies_filter (library : Library) (t d key : Int) (s : State)
    (hmode : s.search_active = true) (hk : key = KEY_ENTER ∨ key = 10 ∨ key = 13) :
    (handleKey library t d key s).1.search_active = false ∧
      (pyStrip s.search_query ≠ [] →
        (handleKey library t d key s).1.filtered_library =
            (search_library library (pyStrip s.search_query)).1 ∧
          (handleKey library t d key s).1.filtered_artists =
            (search_library library (pyStrip s.search_query)).2 ∧
          (handleKey library t d key s).1.selected_artist = 0 ∧
          (handleKey library t d key s).1.artist_offset = 0 ∧
          (handleKey library t d key s).1.selected_song = 0 ∧
          (handleKey library t d key s).1.song_offset = 0) ∧
      (pyStrip s.search_query = [] →
        (handleKey library t d key s).1.filtered_library = s.filtered_library ∧
          (handleKey library t d key s).1.filtered_artists = s.filtered_artists) := by
  have h27 : key ≠ 27 := by
    rcases hk with h | h | h <;> subst h <;> decide
  rw [handleKey_searching library t d key s hmode]
  unfold searchStep
  rw [if_neg h27, if_pos hk]
  by_cases hstrip : pyStrip s.search_query = []
  · rw [if_neg (by simpa using hstrip)]
    exact ⟨rfl, fun hne => absurd hstrip hne, fun _ => ⟨rfl, rfl⟩⟩
  · rw [if_pos hstrip]
    exact ⟨rfl, fun _ => ⟨rfl, rfl, rfl, rfl, rfl, rfl⟩, fun he => absurd he hstrip⟩

/-- Witness for C4: confirming the query "abba" from search mode applies
the filter and lands in browsing mode. -/
theorem search_confirm_applies_filter_witness :
    (({ initState [] 30 80 with
        search_active := true, search_query := String.toList "abba" }).search_active = true) ∧
      (handleKey [] 0 0 10 { initState [] 30 80 with
        search_active := true, search_query := String.toList "abba" }).1.search_active = false := by
  refine ⟨by decide, ?_⟩
  exact (search_confirm_applies_filter [] 0 0 10
    { initState [] 30 80 with search_active := true, search_query := String.toList "abba" }
    (by decide) (Or.inr (Or.inl rfl))).1

lemma searchStep_quit_false (library : Library) (key : Int) (s : State) :
    (searchStep library key s).2.1 = false := by
  unfold searchStep
  split
  · rfl
  split
  · split <;> rfl
  split
  · split <;> rfl
  split <;> rfl

lemma searchStep_printable (library : Library) (key : Int) (s : State)
    (h : 32 ≤ key ∧ key ≤ 126) :
    searchStep library key s =
      ({ s with search_query := s.search_query ++ [Char.ofNat key.toNat] }, false, []) := by
  have h27 : key ≠ 27 := by omega
  have hent : ¬(key = KEY_ENTER ∨ key = 10 ∨ key = 13) := by
    simp only [KEY_ENTER]
    omega
  have hbs : ¬(key = KEY_BACKSPACE ∨ key = 8 ∨ key = 127) := by
    simp only [KEY_BACKSPACE]
    omega
  unfold searchStep
  rw [if_neg h27, if_neg hent, if_neg hbs, if_pos h]

lemma searchStep_active_iff (library : Library) (key : Int) (s : State)
    (hmode : s.search_active = true) :
    ((searchStep library key s).1.search_active = false ↔
      (key = 27 ∨ key = KEY_ENTER ∨ key = 10 ∨ key = 13)) := by
  unfold searchStep
  by_cases h27 : key = 27
  · rw [if_pos h27]
    simp [h27]
  rw [if_neg h27]
  by_cases hent : key = KEY_ENTER ∨ key = 10 ∨ key = 13
  · rw [if_pos hent]
    split <;> simp [hent]
  rw [if_neg hent]
  by_cases hbs : key = KEY_BACKSPACE ∨ key = 8 ∨ key = 127
  · rw [if_pos hbs]
    split <;> simp [hmode, h27, hent]
  rw [if_neg hbs]
  split <;> simp [hmode, h27, hent]

lemma browsing_quit_exits (library : Library) (t d : Int) (s2 : State)
    (h : s2.search_active = false) :
    (handleKey library t d 113 s2).2.1 = true := by
  unfold handleKey
  rw [h]
  simp [KEY_UP, KEY_DOWN, KEY_LEFT, KEY_RIGHT, KEY_ENTER]

/-- C8: while Searching, no key is processed as quit (the quit flag is
never raised), every printable key — the quit key `q` included — is
appended to the query buffer leaving the mode unchanged, the mode drops
back to Browsing exactly on Escape or Confirm, and in Browsing the quit
key does raise the quit flag. -/
theorem searching_captures_all_input (library : Library) (t d key : Int) (s : State)
    (hmode : s.search_active = true) :
    (handleKey library t d key s).2.1 = false ∧
      (32 ≤ key ∧ key ≤ 126 →
        (handleKey library t d key s).1.search_query =
            s.search_query ++ [Char.ofNat key.toNat] ∧
          (handleKey library t d key s).1.search_active = true) ∧
      ((handleKey library t d key s).1.search_active = false ↔
        (key = 27 ∨ key = KEY_ENTER ∨ key = 10 ∨ key = 13)) ∧
      ∀ s2 : State, s2.search_active = false → (handleKey library t d 113 s2).2.1 = true := by
  rw [handleKey_searching library t d key s hmode]
  refine ⟨searchStep_quit_false library key s, ?_, searchStep_active_iff library key s hmode,
    fun s2 h2 => browsing_quit_exits library t d s2 h2⟩
  intro h
  rw [searchStep_printable library key s h]
  exact ⟨rfl, hmode⟩

/-- Witness for C8: in search mode the quit key `q` (113) is captured
into the query, and the loop does not exit. -/
theorem searching_captures_all_input_witness :
    (({ initState [] 30 80 with search_active := true }).search_active = true) ∧
      ((32 : Int) ≤ 113 ∧ (113 : Int) ≤ 126) ∧
      (handleKey [] 0 0 113 { initState [] 30 80 with search_active := true }).2.1 = false := by
  refine ⟨by decide, ⟨by decide, by decide⟩, ?_⟩
  exact (searching_captures_all_input [] 0 0 113
    { initState [] 30 80 with search_active := true } (by decide)).1

/-- C9: in browsing mode, an Up or Down key unconditionally resets the
song cursor and song offset to zero — also when the artist cursor is
pinned at a boundary and does not move — and leaves every non-cursor
field (mode, query, current track, playback flags, volume, filtered
view, layout) unchanged, raising no quit flag and issuing no command. -/
theorem artist_nav_resets_song_cursor (library : Library) (t d key : Int) (s : State)
    (hmode : s.search_active = false) (hk : key = KEY_UP ∨ key = KEY_DOWN) :
    (handleKey library t d key s).1.selected_song = 0 ∧
      (handleKey library t d key s).1.song_offset = 0 ∧
      (handleKey library t d key s).1.search_active = s.search_active ∧
      (handleKey library t d key s).1.search_query = s.search_query ∧
      (handleKey library t d key s).1.curr_song = s.curr_song ∧
      (handleKey library t d key s).1.curr_artist = s.curr_artist ∧
      (handleKey library t d key s).1.playing = s.playing ∧
      (handleKey library t d key s).1.repeat_flag = s.repeat_flag ∧
      (handleKey library t d key s).1.volume = s.volume ∧
      (handleKey library t d key s).1.filtered_library = s.filtered_library ∧
      (handleKey library t d key s).1.filtered_artists = s.filtered_artists ∧
      (handleKey library t d key s).1.height = s.height ∧
      (handleKey library t d key s).1.width = s.width ∧
      (handleKey library t d key s).1.max_rows = s.max_rows ∧
      (handleKey library t d key s).2.1 = false ∧
      (handleKey library t d key s).2.2 = [] := by
  rcases hk with h | h <;> subst h
  · rw [handleKey_up library t d s hmode]
    unfold artistUp artistUpMove
    split
    · exact ⟨rfl, rfl, rfl, rfl, rfl, rfl, rfl, rfl, rfl, rfl, rfl, rfl, rfl, rfl, rfl, rfl⟩
    split
    · exact ⟨rfl, rfl, rfl, rfl, rfl, rfl, rfl, rfl, rfl, rfl, rfl, rfl, rfl, rfl, rfl, rfl⟩
    · exact ⟨rfl, rfl, rfl, rfl, rfl, rfl, rfl, rfl, rfl, rfl, rfl, rfl, rfl, rfl, rfl, rfl⟩
  · rw [handleKey_down library t d s hmode]
    unfold artistDown artistDownMove
    split
    · exact ⟨rfl, rfl, rfl, rfl, rfl, rfl, rfl, rfl, rfl, rfl, rfl, rfl, rfl, rfl, rfl, rfl⟩
    split
    · exact ⟨rfl, rfl, rfl, rfl, rfl, rfl, rfl, rfl, rfl, rfl, rfl, rfl, rfl, rfl, rfl, rfl⟩
    · exact ⟨rfl, rfl, rfl, rfl, rfl, rfl, rfl, rfl, rfl, rfl, rfl, rfl, rfl, rfl, rfl, rfl⟩

/-- Witness for C9 at a boundary: with the artist cursor already at the
top, Up still resets the song cursor. -/
theorem artist_nav_resets_song_cursor_witness :
    (({ initState [] 30 80 with selected_song := 3, song_offset := 1 }).search_active = false) ∧
      (handleKey [] 0 0 KEY_UP
          { initState [] 30 80 with selected_song := 3, song_offset := 1 }).1.selected_song = 0 := by
  refine ⟨by decide, ?_⟩
  exact (artist_nav_resets_song_cursor [] 0 0 KEY_UP
    { initState [] 30 80 with selected_song := 3, song_offset := 1 }
    (by decide) (Or.inl rfl)).1

/-- C6 (divergence witness): the embedded seek handlers clamp
asymmetrically.  A 5-second backward seek issued with the engine
reporting position 999999ms on a 1000ms track requests 994999ms — far
past the duration — and a 5-second forward seek with an unknown duration
(-1, as the engine reports before metadata is ready) requests the
negative position -1. -/
theorem seek_clamps_asymmetrically :
    ((handleKey [] 999999 1000 44
          { initState [] 30 80 with curr_song := some (String.toList "/m/a.mp3") }).2.2 =
        [Cmd.setTime 994999] ∧ ¬((994999 : Int) ≤ 1000)) ∧
      ((handleKey [] 0 (-1) 46
          { initState [] 30 80 with curr_song := some (String.toList "/m/a.mp3") }).2.2 =
        [Cmd.setTime (-1)] ∧ ((-1 : Int) < 0)) := by
  exact ⟨⟨by decide, by decide⟩, ⟨by decide, by decide⟩⟩

/-! ## Volume clamping (C7) -/

lemma searchStep_volume_cmds (library : Library) (key : Int) (s : State) :
    (searchStep library key s).1.volume = s.volume ∧ (searchStep library key s).2.2 = [] := by
  unfold searchStep
  split
  · exact ⟨rfl, rfl⟩
  split
  · split <;> exact ⟨rfl, rfl⟩
  split
  · split <;> exact ⟨rfl, rfl⟩
  split <;> exact ⟨rfl, rfl⟩

lemma handleKey_volUp (library : Library) (t d : Int) (s : State)
    (hmode : s.search_active = false) :
    handleKey library t d 61 s =
      ({ s with volume := min 100 (s.volume + 5) }, false,
        [Cmd.setVolume (min 100 (s.volume + 5))]) := by
  unfold handleKey
  rw [hmode]
  norm_num [KEY_UP, KEY_DOWN, KEY_LEFT, KEY_RIGHT, KEY_ENTER]
  try exact hmode

lemma handleKey_volDown (library : Library) (t d : Int) (s : State)
    (hmode : s.search_active = false) :
    handleKey library t d 45 s =
      ({ s with volume := max 0 (s.volume - 5) }, false,
        [Cmd.setVolume (max 0 (s.volume - 5))]) := by
  unfold handleKey
  rw [hmode]
  norm_num [KEY_UP, KEY_DOWN, KEY_LEFT, KEY_RIGHT, KEY_ENTER]
  try exact hmode

lemma handleKey_volume_step (library : Library) (t d key : Int) (s : State)
    (hkey : key = 61 ∨ key = 45) (h0 : 0 ≤ s.volume) (h1 : s.volume ≤ 100) :
    (0 ≤ (handleKey library t d key s).1.volume ∧
        (handleKey library t d key s).1.volume ≤ 100) ∧
      ∀ v, Cmd.setVolume v ∈ (handleKey library t d key s).2.2 → 0 ≤ v ∧ v ≤ 100 := by
  cases hmode : s.search_active with
  | true =>
    rw [handleKey_searching library t d key s hmode]
    obtain ⟨hv, hc⟩ := searchStep_volume_cmds library key s
    rw [hv, hc]
    exact ⟨⟨h0, h1⟩, by simp⟩
  | false =>
    rcases hkey with hk | hk <;> subst hk
    · rw [handleKey_volUp library t d s hmode]
      dsimp only
      refine ⟨⟨by omega, by omega⟩, ?_⟩
      intro v hv
      simp only [List.mem_singleton, Cmd.setVolume.injEq] at hv
      omega
    · rw [handleKey_volDown library t d s hmode]
      dsimp only
      refine ⟨⟨by omega, by omega⟩, ?_⟩
      intro v hv
      simp only [List.mem_singleton, Cmd.setVolume.injEq] at hv
      omega

lemma resizeCheck_same (s : State) : resizeCheck s.height s.width s = s := by
  unfold resizeCheck
  simp

lemma runKeysTrace_volume (library : Library) (keys : List Int) :
    ∀ s : State, (∀ k ∈ keys, k = 61 ∨ k = 45) → 0 ≤ s.volume → s.volume ≤ 100 →
      (0 ≤ (runKeysTrace library keys s).1.volume ∧
          (runKeysTrace library keys s).1.volume ≤ 100) ∧
        ∀ v, Cmd.setVolume v ∈ (runKeysTrace library keys s).2 → 0 ≤ v ∧ v ≤ 100 := by
  induction keys with
  | nil =>
    intro s _ h0 h1
    exact ⟨⟨h0, h1⟩, by simp [runKeysTrace]⟩
  | cons k ks ih =>
    intro s hkeys h0 h1
    have hk : k = 61 ∨ k = 45 := hkeys k (by simp)
    have hks : ∀ k2 ∈ ks, k2 = 61 ∨ k2 = 45 := fun k2 h2 => hkeys k2 (by simp [h2])
    have htick : tick library s.height s.width 0 0 k s = handleKey library 0 0 k s := by
      unfold tick
      rw [resizeCheck_same]
    have hstep := handleKey_volume_step library 0 0 k s hk h0 h1
    have hrest := ih (handleKey library 0 0 k s).1 hks hstep.1.1 hstep.1.2
    simp only [runKeysTrace, htick]
    refine ⟨hrest.1, ?_⟩
    intro v hv
    rw [List.mem_append] at hv
    rcases hv with hv | hv
    · exact hstep.2 v hv
    · exact hrest.2 v hv

/-- C7: starting from the initial volume of 50, any sequence of
volume-up/volume-down inputs keeps the session volume inside `[0, 100]`
and every `setVolume` command sent to the engine carries a value in
`[0, 100]`; each single adjustment is a clamped move by 5. -/
theorem volume_adjustments_clamped (library : Library) (h w : Int) (keys : List Int)
    (hkeys : ∀ k ∈ keys, k = 61 ∨ k = 45) :
    (0 ≤ (runKeysTrace library keys (initState library h w)).1.volume ∧
        (runKeysTrace library keys (initState library h w)).1.volume ≤ 100) ∧
      (∀ v, Cmd.setVolume v ∈ (runKeysTrace library keys (initState library h w)).2 →
        0 ≤ v ∧ v ≤ 100) ∧
      ∀ s2 : State, s2.search_active = false →
        (handleKey library 0 0 61 s2).1.volume = min 100 (s2.volume + 5) ∧
          (handleKey library 0 0 45 s2).1.volume = max 0 (s2.volume - 5) := by
  have hinit := runKeysTrace_volume library keys (initState library h w) hkeys
    (by norm_num [initState]) (by norm_num [initState])
  refine ⟨hinit.1, hinit.2, ?_⟩
  intro s2 h2
  rw [handleKey_volUp library 0 0 s2 h2, handleKey_volDown library 0 0 s2 h2]
  exact ⟨rfl, rfl⟩

/-- Witness for C7: two downs and an up from 50 stay clamped. -/
theorem volume_adjustments_clamped_witness :
    (∀ k ∈ [(45 : Int), 45, 61], k = 61 ∨ k = 45) ∧
      0 ≤ (runKeysTrace [] [45, 45, 61] (initState [] 30 80)).1.volume := by
  refine ⟨by decide, ?_⟩
  exact (volume_adjustments_clamped [] 30 80 [45, 45, 61] (by decide)).1.1

/-! ## Navigation bounds (C2)

The inductive invariant for the windowed-list cursors: selection and
offset are non-negative, their sum stays below the list length, the
offset never exceeds the part of the list that cannot fit in the window,
and the selection never leaves the window. -/

def cursorInv (len mr sel off : Int) : Prop :=
  0 ≤ sel ∧ 0 ≤ off ∧ sel + off ≤ len - 1 ∧ off ≤ max 0 (len - mr) ∧ sel ≤ max 0 (mr - 1)

/-- The track indexes the session is able to browse: non-empty, with
unique artist keys (a Python dict guarantee) and no artist whose
flattened song list is empty. -/
def GoodLib (lib : Library) : Prop :=
  lib ≠ [] ∧ (lib.map Prod.fst).Nodup ∧ ∀ e ∈ lib, flatten_album e.2 ≠ []

/-- The navigation invariant: browsing mode with no filter, plus the
cursor invariant for the artist list and for the selected artist's
song list. -/
def NavInv (lib : Library) (s : State) : Prop :=
  s.search_active = false ∧ s.search_query = [] ∧
    cursorInv (lib.length : Int) s.max_rows s.selected_artist s.artist_offset ∧
    cursorInv ((songsAt lib (s.selected_artist + s.artist_offset)).length : Int)
      s.max_rows s.selected_song s.song_offset

lemma cursorInv_zero (len mr : Int) (h : 1 ≤ len) : cursorInv len mr 0 0 := by
  unfold cursorInv
  omega

lemma cursorInv_dec_sel (len mr sel off : Int) (h : cursorInv len mr sel off)
    (hs : sel > 0) : cursorInv len mr (sel - 1) off := by
  unfold cursorInv at *
  omega

lemma cursorInv_dec_off (len mr sel off : Int) (h : cursorInv len mr sel off)
    (hns : ¬ sel > 0) (ho : sel + off > 0) : cursorInv len mr sel (off - 1) := by
  unfold cursorInv at *
  omega

lemma cursorInv_inc_sel (len mr sel off : Int) (h : cursorInv len mr sel off)
    (hc : sel < min (mr - 1) (len - 1)) : cursorInv len mr (sel + 1) off := by
  unfold cursorInv at *
  omega

lemma cursorInv_inc_off (len mr sel off : Int) (h : cursorInv len mr sel off)
    (hc1 : ¬ sel < min (mr - 1) (len - 1)) (hc2 : sel + off < len - 1) :
    cursorInv len mr sel (off + 1) := by
  unfold cursorInv at *
  omega

lemma songsAt_len_pos (lib : Library) (hg : GoodLib lib) (i : Int)
    (h0 : 0 ≤ i) (h1 : i ≤ (lib.length : Int) - 1) :
    1 ≤ ((songsAt lib i).length : Int) := by
  obtain ⟨hne, hnd, hflat⟩ := hg
  have hi : i.toNat < lib.length := by omega
  unfold songsAt
  rw [List.getElem?_eq_getElem hi]
  have hmem : lib[i.toNat] ∈ lib := List.getElem_mem hi
  have hne2 : flatten_album (lib[i.toNat]).2 ≠ [] := hflat _ hmem
  have hpos : 0 < (flatten_album (lib[i.toNat]).2).length := List.length_pos.mpr hne2
  simp only [Option.map_some', Option.getD_some]
  omega

lemma currentArtists_no_query (lib : Library) (s : State) (hq : s.search_query = []) :
    currentArtists lib s = lib.map Prod.fst := by
  simp [currentArtists, hq]

lemma currentLibrary_no_query (lib : Library) (s : State) (hq : s.search_query = []) :
    currentLibrary lib s = lib := by
  simp [currentLibrary, hq]

lemma pyBound_le (n : Nat) (i : Int) : pyBound n i ≤ n := by
  unfold pyBound
  split <;> omega

lemma pyBound_nonneg_eq (n : Nat) (i : Int) (h0 : 0 ≤ i) (h1 : i ≤ (n : Int)) :
    pyBound n i = i.toNat := by
  unfold pyBound
  rw [if_neg (by omega)]
  omega

lemma pySlice_getElem (l : List α) (a b : Int) (h0 : 0 ≤ a) (h1 : a ≤ (l.length : Int))
    (j : Nat) (hj : j < (pySlice l a b).length) :
    (pySlice l a b)[j]? = l[a.toNat + j]? := by
  have he := pyBound_le l.length b
  unfold pySlice at hj ⊢
  rw [pyBound_nonneg_eq l.length a h0 h1] at hj ⊢
  simp only [List.length_drop, List.length_take] at hj
  rw [List.getElem?_drop, List.getElem?_take, if_pos (by omega)]

lemma visibleArtists_getElem (lib : Library) (s : State) (hq : s.search_query = [])
    (h0 : 0 ≤ s.artist_offset) (h1 : s.artist_offset ≤ (lib.length : Int))
    (j : Nat) (hj : j < (visibleArtists lib s).length) :
    (visibleArtists lib s)[j]? = (lib.map Prod.fst)[s.artist_offset.toNat + j]? := by
  unfold visibleArtists at hj ⊢
  rw [currentArtists_no_query lib s hq] at hj ⊢
  exact pySlice_getElem (lib.map Prod.fst) s.artist_offset (s.artist_offset + s.max_rows)
    h0 (by rw [List.length_map]; exact h1) j hj

lemma dictGet_getElem (lib : Library) (hnd : (lib.map Prod.fst).Nodup)
    (k : Nat) (hk : k < lib.length) :
    dictGet lib (lib[k].1) = (lib[k]).2 := by
  induction lib generalizing k with
  | nil => simp at hk
  | cons e rest ih =>
    obtain ⟨a, al⟩ := e
    rw [List.map_cons, List.nodup_cons] at hnd
    cases k with
    | zero =>
      simp [dictGet]
    | succ n =>
      have hn : n < rest.length := by simpa using hk
      have hidx : ((a, al) :: rest)[n + 1] = rest[n] := by
        simp
      rw [hidx]
      have hmem : (rest[n]).1 ∈ rest.map Prod.fst :=
        List.mem_map_of_mem Prod.fst (List.getElem_mem hn)
      have hne : (rest[n]).1 ≠ a := fun hcontra => hnd.1 (hcontra ▸ hmem)
      unfold dictGet
      rw [if_neg hne]
      exact ih hnd.2 n hn

lemma allSongsByArtist_spec (lib : Library) (s : State)
    (hnd : (lib.map Prod.fst).Nodup) (hq : s.search_query = [])
    (hA : cursorInv (lib.length : Int) s.max_rows s.selected_artist s.artist_offset) :
    allSongsByArtist lib s = songsAt lib (s.selected_artist + s.artist_offset) ∨
      allSongsByArtist lib s = [] := by
  obtain ⟨hs0, ho0, hsum, _, _⟩ := hA
  unfold allSongsByArtist
  by_cases hg : visibleArtists lib s ≠ [] ∧
      s.selected_artist < ((visibleArtists lib s).length : Int)
  · left
    rw [if_pos hg]
    have hjlt : s.selected_artist.toNat < (visibleArtists lib s).length := by
      obtain ⟨-, hlt⟩ := hg
      omega
    have hget := visibleArtists_getElem lib s hq ho0 (by omega) s.selected_artist.toNat hjlt
    have hpy : pyGet (visibleArtists lib s) s.selected_artist =
        ((visibleArtists lib s)[s.selected_artist.toNat]?).getD [] := by
      unfold pyGet
      rw [if_pos hs0]
    have hidxlt : s.artist_offset.toNat + s.selected_artist.toNat < lib.length := by omega
    have hmap : (lib.map Prod.fst)[s.artist_offset.toNat + s.selected_artist.toNat]? =
        some ((lib[s.artist_offset.toNat + s.selected_artist.toNat]).1) := by
      rw [List.getElem?_map, List.getElem?_eq_getElem hidxlt, Option.map_some']
    rw [hpy, hget, hmap, Option.getD_some, currentLibrary_no_query lib s hq,
      dictGet_getElem lib hnd _ hidxlt]
    unfold songsAt
    have hcast : (s.selected_artist + s.artist_offset).toNat =
        s.artist_offset.toNat + s.selected_artist.toNat := by omega
    rw [hcast, List.getElem?_eq_getElem hidxlt]
    simp only [Option.map_some', Option.getD_some]
  · right
    rw [if_neg hg]

lemma navInv_up (lib : Library) (s : State) (hg : GoodLib lib) (h : NavInv lib s) :
    NavInv lib (artistUp s) := by
  obtain ⟨hm, hq, hA, hS⟩ := h
  obtain ⟨a1, a2, a3, a4, a5⟩ := hA
  unfold artistUp artistUpMove
  dsimp only
  split
  case isTrue hgt =>
    refine ⟨hm, hq, cursorInv_dec_sel _ _ _ _ ⟨a1, a2, a3, a4, a5⟩ hgt, ?_⟩
    exact cursorInv_zero _ _
      (songsAt_len_pos lib hg (s.selected_artist - 1 + s.artist_offset) (by omega) (by omega))
  case isFalse hngt =>
    split
    case isTrue hsum =>
      refine ⟨hm, hq, cursorInv_dec_off _ _ _ _ ⟨a1, a2, a3, a4, a5⟩ hngt hsum, ?_⟩
      exact cursorInv_zero _ _
        (songsAt_len_pos lib hg (s.selected_artist + (s.artist_offset - 1)) (by omega) (by omega))
    case isFalse hnsum =>
      refine ⟨hm, hq, ⟨a1, a2, a3, a4, a5⟩, ?_⟩
      exact cursorInv_zero _ _
        (songsAt_len_pos lib hg (s.selected_artist + s.artist_offset) (by omega) (by omega))

lemma navInv_down (lib : Library) (s : State) (hg : GoodLib lib) (h : NavInv lib s) :
    NavInv lib (artistDown ((currentArtists lib s).length : Int) s) := by
  obtain ⟨hm, hq, hA, hS⟩ := h
  obtain ⟨a1, a2, a3, a4, a5⟩ := hA
  rw [currentArtists_no_query lib s hq, List.length_map]
  unfold artistDown artistDownMove
  dsimp only
  split
  case isTrue hlt =>
    refine ⟨hm, hq, cursorInv_inc_sel _ _ _ _ ⟨a1, a2, a3, a4, a5⟩ hlt, ?_⟩
    exact cursorInv_zero _ _
      (songsAt_len_pos lib hg (s.selected_artist + 1 + s.artist_offset) (by omega) (by omega))
  case isFalse hnlt =>
    split
    case isTrue hsum =>
      refine ⟨hm, hq, cursorInv_inc_off _ _ _ _ ⟨a1, a2, a3, a4, a5⟩ hnlt hsum, ?_⟩
      exact cursorInv_zero _ _
        (songsAt_len_pos lib hg (s.selected_artist + (s.artist_offset + 1)) (by omega) (by omega))
    case isFalse hnsum =>
      refine ⟨hm, hq, ⟨a1, a2, a3, a4, a5⟩, ?_⟩
      exact cursorInv_zero _ _
        (songsAt_len_pos lib hg (s.selected_artist + s.artist_offset) (by omega) (by omega))

lemma navInv_left (lib : Library) (s : State) (h : NavInv lib s) :
    NavInv lib (songLeft s) := by
  obtain ⟨hm, hq, hA, hS⟩ := h
  unfold songLeft
  split
  case isTrue hgt =>
    exact ⟨hm, hq, hA, cursorInv_dec_sel _ _ _ _ hS hgt⟩
  case isFalse hngt =>
    split
    case isTrue hsum =>
      exact ⟨hm, hq, hA, cursorInv_dec_off _ _ _ _ hS hngt hsum⟩
    case isFalse hnsum =>
      exact ⟨hm, hq, hA, hS⟩

lemma navInv_right (lib : Library) (s : State) (hg : GoodLib lib) (h : NavInv lib s) :
    NavInv lib (songRight ((allSongsByArtist lib s).length : Int) s) := by
  obtain ⟨hm, hq, hA, hS⟩ := h
  rcases allSongsByArtist_spec lib s hg.2.1 hq hA with hcase | hcase
  · rw [hcase]
    unfold songRight
    split
    case isTrue hlt =>
      exact ⟨hm, hq, hA, cursorInv_inc_sel _ _ _ _ hS hlt⟩
    case isFalse hnlt =>
      split
      case isTrue hsum =>
        exact ⟨hm, hq, hA, cursorInv_inc_off _ _ _ _ hS hnlt hsum⟩
      case isFalse hnsum =>
        exact ⟨hm, hq, hA, hS⟩
  · rw [hcase]
    obtain ⟨b1, b2, b3, b4, b5⟩ := hS
    unfold songRight
    split
    case isTrue hlt =>
      exact absurd hlt (by simp only [List.length_nil]; omega)
    case isFalse hnlt =>
      split
      case isTrue hsum =>
        exact absurd hsum (by simp only [List.length_nil]; omega)
      case isFalse hnsum =>
        exact ⟨hm, hq, hA, b1, b2, b3, b4, b5⟩

lemma navInv_step (lib : Library) (hg : GoodLib lib) (k t d : Int) (s : State)
    (hk : k = KEY_UP ∨ k = KEY_DOWN ∨ k = KEY_LEFT ∨ k = KEY_RIGHT)
    (h : NavInv lib s) : NavInv lib (handleKey lib t d k s).1 := by
  have hm := h.1
  rcases hk with hk | hk | hk | hk <;> subst hk
  · rw [handleKey_up lib t d s hm]
    exact navInv_up lib s hg h
  · rw [handleKey_down lib t d s hm]
    exact navInv_down lib s hg h
  · rw [handleKey_left lib t d s hm]
    exact navInv_left lib s h
  · rw [handleKey_right lib t d s hm]
    exact navInv_right lib s hg h

lemma runKeys_navInv (lib : Library) (hg : GoodLib lib) (keys : List Int) :
    ∀ s : State, NavInv lib s →
      (∀ k ∈ keys, k = KEY_UP ∨ k = KEY_DOWN ∨ k = KEY_LEFT ∨ k = KEY_RIGHT) →
      NavInv lib (runKeys lib keys s) := by
  induction keys with
  | nil =>
    intro s h _
    simpa only [runKeys] using h
  | cons k ks ih =>
    intro s h hkeys
    have hstep := navInv_step lib hg k 0 0 s (hkeys k (by simp)) h
    have htick : (tick lib s.height s.width 0 0 k s).1 = (handleKey lib 0 0 k s).1 := by
      unfold tick
      rw [resizeCheck_same]
    simp only [runKeys, htick]
    exact ih _ hstep fun k2 h2 => hkeys k2 (by simp [h2])

lemma navInv_init (lib : Library) (h w : Int) (hg : GoodLib lib) :
    NavInv lib (initState lib h w) := by
  have hlen : 0 < lib.length := List.length_pos.mpr hg.1
  refine ⟨rfl, rfl, ?_, ?_⟩
  · exact cursorInv_zero _ _ (by omega)
  · exact cursorInv_zero _ _ (songsAt_len_pos lib hg ((0 : Int) + 0) (by omega) (by omega))

/-- C2: with a non-empty artist list and every artist holding at least
one song, any sequence of directional inputs from the initial state keeps
`selected + offset` inside `[0, length - 1]` for the artist list, and
inside `[0, length - 1]` for the selected artist's song list. -/
theorem navigation_bounds (lib : Library) (h w : Int) (keys : List Int)
    (hne : lib ≠ []) (hnd : (lib.map Prod.fst).Nodup)
    (hsongs : ∀ e ∈ lib, flatten_album e.2 ≠ [])
    (hkeys : ∀ k ∈ keys, k = KEY_UP ∨ k = KEY_DOWN ∨ k = KEY_LEFT ∨ k = KEY_RIGHT) :
    0 ≤ (runKeys lib keys (initState lib h w)).selected_artist +
        (runKeys lib keys (initState lib h w)).artist_offset ∧
      (runKeys lib keys (initState lib h w)).selected_artist +
          (runKeys lib keys (initState lib h w)).artist_offset ≤ (lib.length : Int) - 1 ∧
      0 ≤ (runKeys lib keys (initState lib h w)).selected_song +
          (runKeys lib keys (initState lib h w)).song_offset ∧
      (runKeys lib keys (initState lib h w)).selected_song +
          (runKeys lib keys (initState lib h w)).song_offset ≤
        ((songsAt lib ((runKeys lib keys (initState lib h w)).selected_artist +
            (runKeys lib keys (initState lib h w)).artist_offset)).length : Int) - 1 := by
  have hg : GoodLib lib := ⟨hne, hnd, hsongs⟩
  have hinv := runKeys_navInv lib hg keys (initState lib h w) (navInv_init lib h w hg) hkeys
  obtain ⟨-, -, ⟨a1, a2, a3, -, -⟩, ⟨b1, b2, b3, -, -⟩⟩ := hinv
  exact ⟨by omega, a3, by omega, b3⟩

/-- Witness for C2: a two-artist index, one song each, window of 3 rows,
walked with Down, Right, Up. -/
theorem navigation_bounds_witness :
    (([(String.toList "Abba", [(String.toList "A1", [String.toList "/m/a.mp3"])]),
        (String.toList "Bjork", [(String.toList "B1", [String.toList "/m/b.mp3"])])] :
        Library) ≠ [] ∧
      (([(String.toList "Abba", [(String.toList "A1", [String.toList "/m/a.mp3"])]),
         (String.toList "Bjork", [(String.toList "B1", [String.toList "/m/b.mp3"])])] :
         Library).map Prod.fst).Nodup ∧
      (∀ e ∈ ([(String.toList "Abba", [(String.toList "A1", [String.toList "/m/a.mp3"])]),
         (String.toList "Bjork", [(String.toList "B1", [String.toList "/m/b.mp3"])])] :
         Library), flatten_album e.2 ≠ []) ∧
      (∀ k ∈ [KEY_DOWN, KEY_RIGHT, KEY_UP],
        k = KEY_UP ∨ k = KEY_DOWN ∨ k = KEY_LEFT ∨ k = KEY_RIGHT)) ∧
      0 ≤ (runKeys [(String.toList "Abba", [(String.toList "A1", [String.toList "/m/a.mp3"])]),
            (String.toList "Bjork", [(String.toList "B1", [String.toList "/m/b.mp3"])])]
            [KEY_DOWN, KEY_RIGHT, KEY_UP]
            (initState [(String.toList "Abba", [(String.toList "A1", [String.toList "/m/a.mp3"])]),
              (String.toList "Bjork", [(String.toList "B1", [String.toList "/m/b.mp3"])])]
              15 80)).selected_artist +
          (runKeys [(String.toList "Abba", [(String.toList "A1", [String.toList "/m/a.mp3"])]),
            (String.toList "Bjork", [(String.toList "B1", [String.toList "/m/b.mp3"])])]
            [KEY_DOWN, KEY_RIGHT, KEY_UP]
            (initState [(String.toList "Abba", [(String.toList "A1", [String.toList "/m/a.mp3"])]),
              (String.toList "Bjork", [(String.toList "B1", [String.toList "/m/b.mp3"])])]
              15 80)).artist_offset := by
  refine ⟨⟨by decide, by decide, by decide, by decide⟩, ?_⟩
  exact (navigation_bounds
    [(String.toList "Abba", [(String.toList "A1", [String.toList "/m/a.mp3"])]),
     (String.toList "Bjork", [(String.toList "B1", [String.toList "/m/b.mp3"])])]
    15 80 [KEY_DOWN, KEY_RIGHT, KEY_UP]
    (by decide) (by decide) (by decide) (by decide)).1

end Tmus
